import Mathlib

/-!
Shallow embedding of the SURF lexical core:
`ParseSource` (the cursor over a buffer of 16-bit code units, from
`parse-source`), `Parser.parseCharacterCodePoint` (the code-point decoder
from `surf.js`), and the `Serializer` entry points (`serializeResource`,
`serializeRoot`, `serialize`, `stringify` from `surf.js`).

Code units and numeric values are modelled as `Int` (JavaScript numbers
restricted to the integral values these functions manipulate); a JS string
is a `List Int` of its UTF-16 code units.  A JS value that may be a
number, `undefined`, `NaN`, or a function object is modelled by
`JsValue`.  Errors thrown by the code are modelled with `Except`; since
the cursor object is mutated in place, every cursor operation returns the
(possibly advanced) cursor state alongside the `Except` result, also on
the error path.

A decisive detail of the source: `parseCharacterCodePoint` accesses
`reader.readRequired` with no call parentheses (surf.js lines 96, 101 and
161), and `readRequired` is a plain method of `ParseSource`, not a
getter.  The expression therefore evaluates to the method's function
object, consumes nothing, and every comparison of that object with a
number is false (its ToPrimitive conversion is a string that coerces to
NaN).  The embedding models the property access explicitly
(`readRequiredProp`), keeping the source's branch structure even though
the escape and surrogate branches are consequently dead code.
-/

/-- A JavaScript value as it flows through the decoder: a number,
`undefined`, `NaN`, or the `readRequired` function object obtained by
accessing the method as a property without invoking it. -/
inductive JsValue where
  | num (n : Int)
  | undef
  | nan
  | fnReadRequired
deriving DecidableEq, Repr

/-- The errors thrown by the parsing code: `ParseEndError`,
`ParseUnexpectedDataError(expected, actual)`, and the two `ParseError`
throws inside `parseCharacterCodePoint` (invalid Unicode escape sequence,
unknown escaped character). -/
inductive ParseErr where
  | endError
  | unexpectedDataError (expected actual : Int)
  | invalidUnicodeEscape (units : List Int)
  | unknownEscapedCharacter (c : JsValue)
deriving DecidableEq, Repr

/-- The `ParseSource` object: an immutable buffer of UTF-16 code units and
the current index. -/
structure ParseSource where
  buffer : List Int
  index : Nat
deriving DecidableEq, Repr

namespace ParseSource

/-- `checkNotEnd()`: throws `ParseEndError` if `index >= buffer.length`. -/
def checkNotEnd (s : ParseSource) : Except ParseErr Unit × ParseSource :=
  if s.buffer.length ≤ s.index then (.error .endError, s) else (.ok (), s)

/-- `readRequired()`: `checkNotEnd()` then `buffer.charCodeAt(index++)`.
This is the method's behavior when it is actually invoked, as
`ParseSource.check` itself does with proper parentheses. -/
def readRequired (s : ParseSource) : Except ParseErr Int × ParseSource :=
  match s.checkNotEnd with
  | (.error e, s1) => (.error e, s1)
  | (.ok _, s1) => (.ok (s1.buffer.getD s1.index 0), { s1 with index := s1.index + 1 })

/-- `check(charCode)`: reads the next character via `readRequired()` and
throws `ParseUnexpectedDataError(charCode, c)` if it does not match. -/
def check (s : ParseSource) (charCode : Int) : Except ParseErr Int × ParseSource :=
  match s.readRequired with
  | (.error e, s1) => (.error e, s1)
  | (.ok c, s1) =>
    if c ≠ charCode then (.error (.unexpectedDataError charCode c), s1)
    else (.ok c, s1)

/-- `readRequiredCount(count)`: throws `ParseEndError` if
`index > buffer.length - count` (over the integers this is
`buffer.length < index + count`); otherwise returns
`buffer.slice(index, index + count)` and advances `index` by `count`. -/
def readRequiredCount (s : ParseSource) (count : Nat) :
    Except ParseErr (List Int) × ParseSource :=
  if s.buffer.length < s.index + count then (.error .endError, s)
  else (.ok ((s.buffer.drop s.index).take count), { s with index := s.index + count })

end ParseSource

/-- The expression `reader.readRequired` as it appears at surf.js lines
96, 101 and 161: a property access with no invocation.  Its value is the
method's function object; the reader is not touched and no unit is
consumed. -/
def readRequiredProp (reader : ParseSource) : JsValue × ParseSource :=
  (JsValue.fnReadRequired, reader)

/-- Loose JS equality `x == n` between a value and a number.  A number
compares by value; `undefined`, `NaN` and the function object are never
loosely equal to a number (ToPrimitive of the function yields a string
that coerces to NaN). -/
def jsEqNum (c : JsValue) (n : Int) : Bool :=
  match c with
  | .num m => m = n
  | _ => false

/-- JS `x >= n` for a value and a number: any comparison that coerces to
NaN (from `undefined`, `NaN` or the function object) is false. -/
def jsGeNum (c : JsValue) (n : Int) : Bool :=
  match c with
  | .num m => n ≤ m
  | _ => false

/-- JS `x <= n` for a value and a number: NaN comparisons are false. -/
def jsLeNum (c : JsValue) (n : Int) : Bool :=
  match c with
  | .num m => m ≤ n
  | _ => false

/-- The surrogate-pair formula
`(c - 0xD800) * 0x400 + c2 - 0xDC00 + 0x10000` under JS arithmetic:
NaN unless both operands are numbers. -/
def surrogatePairValue (a b : JsValue) : JsValue :=
  match a, b with
  | .num x, .num y => .num ((x - 0xD800) * 0x400 + y - 0xDC00 + 0x10000)
  | _, _ => .nan

/-! The frozen `SPEC` constant object of `surf.js`.  Only the fields that
are actually assigned in the source exist as numbers; the fields
`SOLIDUS_CHAR`, `BACKSPACE_CHAR`, `FORM_FEED_CHAR`, `LINE_FEED_CHAR`,
`CARRIAGE_RETURN_CHAR`, `CHARACTER_TABULATION_CHAR` and
`LINE_TABULATION_CHAR` are read by `parseCharacterCodePoint` but are never
defined on `SPEC`, so reading them yields `undefined` (`JsValue.undef`). -/
namespace SPEC

def CHARACTER_DELIMITER : Int := 39
def CHARACTER_ESCAPE : Int := 92
def ESCAPED_BACKSPACE : Int := 98
def ESCAPED_FORM_FEED : Int := 102
def ESCAPED_LINE_FEED : Int := 110
def ESCAPED_CARRIAGE_RETURN : Int := 114
def ESCAPED_TAB : Int := 116
def ESCAPED_VERTICAL_TAB : Int := 118
def ESCAPED_UNICODE : Int := 117

def SOLIDUS_CHAR : JsValue := .undef
def BACKSPACE_CHAR : JsValue := .undef
def FORM_FEED_CHAR : JsValue := .undef
def LINE_FEED_CHAR : JsValue := .undef
def CARRIAGE_RETURN_CHAR : JsValue := .undef
def CHARACTER_TABULATION_CHAR : JsValue := .undef
def LINE_TABULATION_CHAR : JsValue := .undef

end SPEC

/-- Hex digit in the sense of `parseInt` radix 16: `0-9`, `A-F`, `a-f`. -/
def isHexDigit (c : Int) : Bool :=
  (48 ≤ c && c ≤ 57) || (65 ≤ c && c ≤ 70) || (97 ≤ c && c ≤ 102)

/-- Value of a hex digit. -/
def hexDigitVal (c : Int) : Int :=
  if 48 ≤ c && c ≤ 57 then c - 48
  else if 65 ≤ c && c ≤ 70 then c - 55
  else c - 87

/-- ECMAScript `StrWhiteSpaceChar`: whitespace and line terminators that
`parseInt` skips before parsing. -/
def isJsWhitespace (c : Int) : Bool :=
  c = 9 || c = 10 || c = 11 || c = 12 || c = 13 || c = 32 || c = 160 ||
  c = 0x1680 || (0x2000 ≤ c && c ≤ 0x200A) || c = 0x2028 || c = 0x2029 ||
  c = 0x202F || c = 0x205F || c = 0x3000 || c = 0xFEFF

/-- With radix 16, `parseInt` strips a leading `0x` or `0X`. -/
def stripRadixMarker (s : List Int) : List Int :=
  match s with
  | 48 :: x :: rest => if x = 120 || x = 88 then rest else 48 :: x :: rest
  | s1 => s1

/-- Numeric value of a list of hex digits, most significant first. -/
def hexVal (ds : List Int) : Int :=
  ds.foldl (fun acc d => acc * 16 + hexDigitVal d) 0

/-- Unsigned part of `Number.parseInt(s, 16)`: strip `0x`/`0X`, then take
the longest prefix of hex digits; `none` (NaN) if that prefix is empty. -/
def jsParseIntHexDigits (s : List Int) : Option Int :=
  let ds := (stripRadixMarker s).takeWhile isHexDigit
  if ds.isEmpty then none else some (hexVal ds)

/-- `Number.parseInt(s, 16)`: skip whitespace, optional sign, optional
`0x`/`0X`, then the longest hex-digit run; `none` models NaN.  Trailing
characters that are not hex digits are ignored, not rejected. -/
def jsParseIntHex (s : List Int) : Option Int :=
  match s.dropWhile isJsWhitespace with
  | 43 :: rest => jsParseIntHexDigits rest
  | 45 :: rest => (jsParseIntHexDigits rest).map (fun n => -n)
  | s1 => jsParseIntHexDigits s1

namespace Parser

/-- `Parser.parseCharacterCodePoint(reader, delimiter)` of `surf.js`,
line by line.  The two reads at lines 96 and 101 and the raw-surrogate
read at line 161 are `reader.readRequired` property accesses with no
invocation (`readRequiredProp`), so `c` holds the method's function
object, `c == delimiter` and `c == SPEC.CHARACTER_ESCAPE` and the
surrogate-range test are all false, and the function falls through to
`return c`, yielding the function object with the cursor untouched on
every input.  The escape `switch` (with its never-matching
`case SPEC.SOLIDUS_CHAR` on an undefined field, its mnemonic arms
assigning the undefined `SPEC.*_CHAR` fields, and its genuine
`readRequiredCount`/`check`/`parseInt` calls inside the `u` arm) is kept
structurally but is dead code. -/
def parseCharacterCodePoint (reader : ParseSource) (delimiter : Int) :
    Except ParseErr JsValue × ParseSource :=
  match readRequiredProp reader with
  | (c, s) =>
  if jsEqNum c delimiter then
    (.ok (JsValue.num (-1)), s)
  else if jsEqNum c SPEC.CHARACTER_ESCAPE then
    match readRequiredProp s with
    | (c, s) =>
    if c = JsValue.num SPEC.CHARACTER_ESCAPE then (.ok c, s)
    else if c = SPEC.SOLIDUS_CHAR then (.ok c, s)
    else if c = JsValue.num SPEC.ESCAPED_BACKSPACE then (.ok SPEC.BACKSPACE_CHAR, s)
    else if c = JsValue.num SPEC.ESCAPED_FORM_FEED then (.ok SPEC.FORM_FEED_CHAR, s)
    else if c = JsValue.num SPEC.ESCAPED_LINE_FEED then (.ok SPEC.LINE_FEED_CHAR, s)
    else if c = JsValue.num SPEC.ESCAPED_CARRIAGE_RETURN then
      (.ok SPEC.CARRIAGE_RETURN_CHAR, s)
    else if c = JsValue.num SPEC.ESCAPED_TAB then
      (.ok SPEC.CHARACTER_TABULATION_CHAR, s)
    else if c = JsValue.num SPEC.ESCAPED_VERTICAL_TAB then
      (.ok SPEC.LINE_TABULATION_CHAR, s)
    else if c = JsValue.num SPEC.ESCAPED_UNICODE then
      match s.readRequiredCount 4 with
      | (.error e, s) => (.error e, s)
      | (.ok unicodeString, s) =>
      match jsParseIntHex unicodeString with
      | none => (.error (.invalidUnicodeEscape unicodeString), s)
      | some c =>
      if 0xD800 ≤ c ∧ c ≤ 0xDBFF then
        match s.check SPEC.CHARACTER_ESCAPE with
        | (.error e, s) => (.error e, s)
        | (.ok _, s) =>
        match s.check SPEC.ESCAPED_UNICODE with
        | (.error e, s) => (.error e, s)
        | (.ok _, s) =>
        match s.readRequiredCount 4 with
        | (.error e, s) => (.error e, s)
        | (.ok unicodeString2, s) =>
        match jsParseIntHex unicodeString2 with
        | none => (.error (.invalidUnicodeEscape unicodeString2), s)
        | some c2 =>
          (.ok (JsValue.num ((c - 0xD800) * 0x400 + c2 - 0xDC00 + 0x10000)), s)
      else (.ok (JsValue.num c), s)
    else
      if ¬ jsEqNum c delimiter then (.error (.unknownEscapedCharacter c), s)
      else (.ok c, s)
  else if jsGeNum c 0xD800 && jsLeNum c 0xDBFF then
    match readRequiredProp s with
    | (c2, s) => (.ok (surrogatePairValue c c2), s)
  else (.ok c, s)

end Parser

/-- A root value handed to the serializer: `null`, `undefined`, or a
string.  (Values of any other type reach the unsupported-value throw just
as non-empty strings do.) -/
inductive Resource where
  | null
  | undef
  | str (s : String)
deriving DecidableEq, Repr

namespace Serializer

/-- `serializeResource(appendable, resource)`: appends `"\"\""` when
`resource === ""`, otherwise throws the unsupported-value `Error`. -/
def serializeResource (appendable : String) (resource : Resource) :
    Except String String :=
  if resource = Resource.str "" then .ok (appendable ++ "\"\"")
  else .error "Serialization of value not yet supported."

/-- `serializeRoot(appendable, root)`: returns at once when
`root == null` (loose equality, so also for `undefined`), otherwise
delegates to `serializeResource`. -/
def serializeRoot (appendable : String) (root : Resource) :
    Except String String :=
  if root = Resource.null ∨ root = Resource.undef then .ok appendable
  else serializeResource appendable root

/-- `serialize(root)`: serializes into a fresh `StringBuffer` and returns
its contents. -/
def serialize (root : Resource) : Except String String :=
  serializeRoot "" root

end Serializer

/-- `exports.stringify(value)`: delegates to `new Serializer().serialize`. -/
def stringify (value : Resource) : Except String String :=
  Serializer.serialize value

/-- Because `reader.readRequired` is accessed without invocation, the
decoder returns the method's function object and leaves the cursor
untouched on every input and for every delimiter; no branch that reads,
parses, or throws is ever reached. -/
theorem parseCharacterCodePoint_stuck (reader : ParseSource) (delimiter : Int) :
    Parser.parseCharacterCodePoint reader delimiter =
      (.ok JsValue.fnReadRequired, reader) := rfl

/-- C1 (code bug): on `😀` with delimiter `'` the decoder does
not return code point `0x1F600` at position 12 as the claim and the
method's doc comment require: `reader.readRequired` is accessed without
invocation (surf.js:96/101), so the call returns the `readRequired`
function object and the position stays 0. -/
theorem surrogate_pair_input_returns_method_object :
    Parser.parseCharacterCodePoint
        ⟨[92, 117, 68, 56, 51, 68, 92, 117, 68, 69, 48, 48], 0⟩ 39 =
      (.ok JsValue.fnReadRequired,
        ⟨[92, 117, 68, 56, 51, 68, 92, 117, 68, 69, 48, 48], 0⟩) ∧
    JsValue.fnReadRequired ≠ JsValue.num 0x1F600 :=
  ⟨rfl, by decide⟩

/-- C2 (code bug): on the two-unit input `\` `n` (and likewise for the
`b, f, r, t, v` mnemonics) the decoder does not return the control
character `0x0A` at position 2: `readRequired` is never invoked
(surf.js:96/101), the `switch` is unreachable, and the call returns the
`readRequired` function object with the position still 0.  (Even with
the invocation repaired, the arms assign `SPEC.*_CHAR` fields that are
never defined on `SPEC`, so they still could not produce `0x0A`.) -/
theorem mnemonic_escape_inputs_return_method_object :
    Parser.parseCharacterCodePoint ⟨[92, 110], 0⟩ 39 =
      (.ok JsValue.fnReadRequired, ⟨[92, 110], 0⟩) ∧
    Parser.parseCharacterCodePoint ⟨[92, 98], 0⟩ 39 =
      (.ok JsValue.fnReadRequired, ⟨[92, 98], 0⟩) ∧
    Parser.parseCharacterCodePoint ⟨[92, 102], 0⟩ 39 =
      (.ok JsValue.fnReadRequired, ⟨[92, 102], 0⟩) ∧
    Parser.parseCharacterCodePoint ⟨[92, 114], 0⟩ 39 =
      (.ok JsValue.fnReadRequired, ⟨[92, 114], 0⟩) ∧
    Parser.parseCharacterCodePoint ⟨[92, 116], 0⟩ 39 =
      (.ok JsValue.fnReadRequired, ⟨[92, 116], 0⟩) ∧
    Parser.parseCharacterCodePoint ⟨[92, 118], 0⟩ 39 =
      (.ok JsValue.fnReadRequired, ⟨[92, 118], 0⟩) ∧
    JsValue.fnReadRequired ≠ JsValue.num 0x0A :=
  ⟨rfl, rfl, rfl, rfl, rfl, rfl, by decide⟩

/-- C3 (code bug): positioned exactly at the delimiter the decoder does
not return `-1` with the delimiter consumed, as the claim and
surf.js:98-99 intend: `c` holds the `readRequired` function object
(surf.js:96, no invocation), `c == delimiter` is false, and the call
returns the function object with the position still 0. -/
theorem delimiter_input_returns_method_object :
    Parser.parseCharacterCodePoint ⟨[39], 0⟩ 39 =
      (.ok JsValue.fnReadRequired, ⟨[39], 0⟩) ∧
    JsValue.fnReadRequired ≠ JsValue.num (-1) :=
  ⟨rfl, by decide⟩

/-- C4 counterexample: on `\uD83D` followed by `A` — an input the claim
covers, since `A` (unit 65, not `\`) is not a `\u` low-surrogate
escape — the decoder does not fail with `UnexpectedCharacter`: it
succeeds, returning the `readRequired` function object with the position
unchanged. -/
theorem high_surrogate_bad_continuation_no_failure :
    Parser.parseCharacterCodePoint ⟨[92, 117, 68, 56, 51, 68, 65], 0⟩ 39 =
      (.ok JsValue.fnReadRequired, ⟨[92, 117, 68, 56, 51, 68, 65], 0⟩) ∧
    (65 : Int) ≠ 92 :=
  ⟨rfl, by decide⟩

/-- C4 (amended): for every input holding an escaped high surrogate at
the position, the decoder neither fails with `UnexpectedCharacter` nor
consumes anything: `reader.readRequired` is accessed without invocation
(surf.js:96/101), so the escape path — including the two `check` calls
the claim's failures would come from — is dead code and the call returns
the `readRequired` function object with the cursor unchanged. -/
theorem high_surrogate_continuation_never_unexpected
    (buf rest : List Int) (idx : Nat) (delimiter : Int)
    (h1 h2 h3 h4 : Int)
    (hdrop : buf.drop idx = 92 :: 117 :: h1 :: h2 :: h3 :: h4 :: rest) :
    Parser.parseCharacterCodePoint ⟨buf, idx⟩ delimiter =
      (.ok JsValue.fnReadRequired, ⟨buf, idx⟩) ∧
    ∀ a b, (Parser.parseCharacterCodePoint ⟨buf, idx⟩ delimiter).1 ≠
      .error (.unexpectedDataError a b) := by
  refine ⟨parseCharacterCodePoint_stuck _ _, ?_⟩
  intro a b
  rw [parseCharacterCodePoint_stuck]
  simp

/-- Witness for C4 (amended): the escaped high surrogate `\uD83D` alone
in the buffer decodes to the function object at unchanged position. -/
theorem high_surrogate_continuation_never_unexpected_witness :
    Parser.parseCharacterCodePoint ⟨[92, 117, 68, 56, 51, 68], 0⟩ 39 =
      (.ok JsValue.fnReadRequired, ⟨[92, 117, 68, 56, 51, 68], 0⟩) :=
  (high_surrogate_continuation_never_unexpected
    [92, 117, 68, 56, 51, 68] [] 0 39 68 56 51 68 rfl).1

/-- C5 counterexample: on `\u12G4` — whose four would-be hex units are
not all valid hex digits (`G` is not one) — the decoder does not fail
with `InvalidEscape`, and it does not even read the four units: it
returns the `readRequired` function object with the position still 0. -/
theorem unicode_escape_nonhex_no_failure :
    Parser.parseCharacterCodePoint ⟨[92, 117, 49, 50, 71, 52], 0⟩ 39 =
      (.ok JsValue.fnReadRequired, ⟨[92, 117, 49, 50, 71, 52], 0⟩) ∧
    isHexDigit 71 = false :=
  ⟨rfl, by decide⟩

/-- C5 (amended): for every input in which the escape letter `u` would
follow the escape character, the decoder reads no units, parses nothing,
and never fails with `InvalidEscape`: the escaped-`u`/`parseInt` path is
dead code because `reader.readRequired` is accessed without invocation
(surf.js:96/101), and the call returns the `readRequired` function
object with the position unchanged. -/
theorem unicode_escape_path_never_invalid_escape
    (buf rest : List Int) (idx : Nat) (delimiter : Int)
    (u1 u2 u3 u4 : Int)
    (hdrop : buf.drop idx = 92 :: 117 :: u1 :: u2 :: u3 :: u4 :: rest) :
    Parser.parseCharacterCodePoint ⟨buf, idx⟩ delimiter =
      (.ok JsValue.fnReadRequired, ⟨buf, idx⟩) ∧
    ∀ units, (Parser.parseCharacterCodePoint ⟨buf, idx⟩ delimiter).1 ≠
      .error (.invalidUnicodeEscape units) := by
  refine ⟨parseCharacterCodePoint_stuck _ _, ?_⟩
  intro units
  rw [parseCharacterCodePoint_stuck]
  simp

/-- Witness for C5 (amended): `A` decodes to the function object at
unchanged position — no read, no parse, no failure. -/
theorem unicode_escape_path_never_invalid_escape_witness :
    Parser.parseCharacterCodePoint ⟨[92, 117, 48, 48, 52, 49], 0⟩ 39 =
      (.ok JsValue.fnReadRequired, ⟨[92, 117, 48, 48, 52, 49], 0⟩) :=
  (unicode_escape_path_never_invalid_escape
    [92, 117, 48, 48, 52, 49] [] 0 39 48 48 52 49 rfl).1

/-- C6: on a buffer with a unit remaining at the position, `check`
consumes one unit and advances the position by 1 whether or not the unit
matches: the matching unit is returned, a mismatch fails with
`UnexpectedCharacter(expected, actual)`, and in both cases the position
has advanced by 1 (no rollback of the consumed unit). -/
theorem check_consumes_and_advances (s : ParseSource) (e : Int)
    (h : s.index < s.buffer.length) :
    (s.buffer.getD s.index 0 = e →
      s.check e = (.ok e, { s with index := s.index + 1 })) ∧
    (s.buffer.getD s.index 0 ≠ e →
      s.check e = (.error (.unexpectedDataError e (s.buffer.getD s.index 0)),
        { s with index := s.index + 1 })) := by
  have hr : s.readRequired =
      (.ok (s.buffer.getD s.index 0), { s with index := s.index + 1 }) := by
    simp only [ParseSource.readRequired, ParseSource.checkNotEnd]
    rw [if_neg (by omega)]
  constructor
  · intro he
    rw [List.getD_eq_getElem?_getD] at he
    simp only [ParseSource.check, hr]
    simp [he]
  · intro he
    rw [List.getD_eq_getElem?_getD] at he
    simp only [ParseSource.check, hr]
    simp [he]

/-- Witness for C6: `check(0x41)` on `A` returns `0x41` with position 1;
`check(0x41)` on `B` fails `UnexpectedCharacter(0x41, 0x42)` with the
position still advanced to 1. -/
theorem check_consumes_and_advances_witness :
    ParseSource.check ⟨[65], 0⟩ 65 = (.ok 65, ⟨[65], 1⟩) ∧
    ParseSource.check ⟨[66], 0⟩ 65 =
      (.error (.unexpectedDataError 65 66), ⟨[66], 1⟩) :=
  ⟨(check_consumes_and_advances ⟨[65], 0⟩ 65 (by decide)).1 (by decide),
   (check_consumes_and_advances ⟨[66], 0⟩ 65 (by decide)).2 (by decide)⟩

/-- C7: for every count and every cursor state, `readRequiredCount`
either fails with `EndOfInput` leaving the state completely unchanged
(when fewer than `count` units remain past the position) or returns the
`count`-unit slice starting at the position and advances the position by
exactly `count` — no partial read ever occurs. -/
theorem readRequiredCount_all_or_nothing (s : ParseSource) (count : Nat) :
    if s.buffer.length < s.index + count then
      s.readRequiredCount count = (.error .endError, s)
    else
      s.readRequiredCount count =
        (.ok ((s.buffer.drop s.index).take count),
          { s with index := s.index + count }) ∧
      ((s.buffer.drop s.index).take count).length = count := by
  by_cases hc : s.buffer.length < s.index + count
  · rw [if_pos hc]
    simp only [ParseSource.readRequiredCount]
    rw [if_pos hc]
  · rw [if_neg hc]
    refine ⟨?_, ?_⟩
    · simp only [ParseSource.readRequiredCount]
      rw [if_neg hc]
    · rw [List.length_take, List.length_drop]
      omega

/-- One cursor operation of the `ParseSource` interface, for stating the
position invariant over arbitrary operation sequences. -/
inductive CursorOp where
  | check (charCode : Int)
  | checkNotEnd
  | readRequired
  | readRequiredCount (count : Nat)
deriving DecidableEq, Repr

/-- The cursor state after one operation (the result value and any thrown
error are discarded; the mutated state survives either way). -/
def CursorOp.apply (op : CursorOp) (s : ParseSource) : ParseSource :=
  match op with
  | .check charCode => (s.check charCode).2
  | .checkNotEnd => s.checkNotEnd.2
  | .readRequired => s.readRequired.2
  | .readRequiredCount count => (s.readRequiredCount count).2

/-- The cursor state after a sequence of operations. -/
def runOps (ops : List CursorOp) (s : ParseSource) : ParseSource :=
  match ops with
  | [] => s
  | op :: rest => runOps rest (op.apply s)

theorem checkNotEnd_state (s : ParseSource) : s.checkNotEnd.2 = s := by
  simp only [ParseSource.checkNotEnd]
  split <;> rfl

theorem readRequired_state (s : ParseSource) :
    s.readRequired.2 =
      if s.buffer.length ≤ s.index then s else { s with index := s.index + 1 } := by
  simp only [ParseSource.readRequired, ParseSource.checkNotEnd]
  by_cases hc : s.buffer.length ≤ s.index
  · rw [if_pos hc, if_pos hc]
  · rw [if_neg hc, if_neg hc]

theorem check_state (s : ParseSource) (e : Int) :
    (s.check e).2 =
      if s.buffer.length ≤ s.index then s else { s with index := s.index + 1 } := by
  by_cases hc : s.buffer.length ≤ s.index
  · have hr : s.readRequired = (.error .endError, s) := by
      simp only [ParseSource.readRequired, ParseSource.checkNotEnd]
      rw [if_pos hc]
    simp only [ParseSource.check, hr]
    rw [if_pos hc]
  · have hr : s.readRequired =
        (.ok (s.buffer.getD s.index 0), { s with index := s.index + 1 }) := by
      simp only [ParseSource.readRequired, ParseSource.checkNotEnd]
      rw [if_neg hc]
    simp only [ParseSource.check, hr]
    rw [if_neg hc]
    split <;> rfl

theorem readRequiredCount_state (s : ParseSource) (count : Nat) :
    (s.readRequiredCount count).2 =
      if s.buffer.length < s.index + count then s
      else { s with index := s.index + count } := by
  simp only [ParseSource.readRequiredCount]
  by_cases hc : s.buffer.length < s.index + count
  · rw [if_pos hc, if_pos hc]
  · rw [if_neg hc, if_neg hc]

theorem apply_state_facts (op : CursorOp) (s : ParseSource) :
    (op.apply s).buffer = s.buffer ∧ s.index ≤ (op.apply s).index ∧
      (s.index ≤ s.buffer.length → (op.apply s).index ≤ s.buffer.length) := by
  cases op with
  | check e =>
    simp only [CursorOp.apply]
    rw [check_state]
    split
    · exact ⟨rfl, Nat.le_refl _, fun h => h⟩
    · refine ⟨rfl, ?_, fun h => ?_⟩ <;> simp <;> omega
  | checkNotEnd =>
    simp only [CursorOp.apply]
    rw [checkNotEnd_state]
    exact ⟨rfl, Nat.le_refl _, fun h => h⟩
  | readRequired =>
    simp only [CursorOp.apply]
    rw [readRequired_state]
    split
    · exact ⟨rfl, Nat.le_refl _, fun h => h⟩
    · refine ⟨rfl, ?_, fun h => ?_⟩ <;> simp <;> omega
  | readRequiredCount count =>
    simp only [CursorOp.apply]
    rw [readRequiredCount_state]
    split
    · exact ⟨rfl, Nat.le_refl _, fun h => h⟩
    · refine ⟨rfl, ?_, fun h => ?_⟩ <;> simp <;> omega

theorem runOps_state_facts (ops : List CursorOp) (s : ParseSource) :
    (runOps ops s).buffer = s.buffer ∧ s.index ≤ (runOps ops s).index ∧
      (s.index ≤ s.buffer.length → (runOps ops s).index ≤ s.buffer.length) := by
  induction ops generalizing s with
  | nil => exact ⟨rfl, Nat.le_refl _, fun hle => hle⟩
  | cons op rest ih =>
    obtain ⟨hb, hm, hi⟩ := apply_state_facts op s
    obtain ⟨hb2, hm2, hi2⟩ := ih (op.apply s)
    rw [hb] at hb2 hi2
    exact ⟨hb2, hm.trans hm2, fun hle => hi2 (hi hle)⟩

/-- C8: starting from any state satisfying `index ≤ buffer.length`, after
any sequence of cursor operations (`check`, `checkNotEnd`,
`readRequired`, `readRequiredCount`) the invariant
`0 ≤ position ≤ buffer.length` still holds (positions are `Nat`, so
`0 ≤ position` is inherent), and across any further sequence — including
operations that fail — the position never decreases. -/
theorem cursor_position_invariant (s : ParseSource)
    (h : s.index ≤ s.buffer.length) (ops more : List CursorOp) :
    (runOps ops s).index ≤ (runOps ops s).buffer.length ∧
    (runOps ops s).index ≤ (runOps more (runOps ops s)).index ∧
    (runOps more (runOps ops s)).index ≤
      (runOps more (runOps ops s)).buffer.length := by
  obtain ⟨hb, hm, hi⟩ := runOps_state_facts ops s
  obtain ⟨hb2, hm2, hi2⟩ := runOps_state_facts more (runOps ops s)
  have h1 : (runOps ops s).index ≤ (runOps ops s).buffer.length := by
    rw [hb]
    exact hi h
  refine ⟨h1, hm2, ?_⟩
  rw [hb2]
  exact hi2 h1

/-- Witness for C8: a concrete run with a read followed by a failing
`check` keeps the invariant and never moves the position backwards. -/
theorem cursor_position_invariant_witness :
    (runOps [CursorOp.readRequired] ⟨[65], 0⟩).index ≤
      (runOps [CursorOp.readRequired] ⟨[65], 0⟩).buffer.length ∧
    (runOps [CursorOp.readRequired] ⟨[65], 0⟩).index ≤
      (runOps [CursorOp.check 66] (runOps [CursorOp.readRequired] ⟨[65], 0⟩)).index ∧
    (runOps [CursorOp.check 66] (runOps [CursorOp.readRequired] ⟨[65], 0⟩)).index ≤
      (runOps [CursorOp.check 66]
        (runOps [CursorOp.readRequired] ⟨[65], 0⟩)).buffer.length :=
  cursor_position_invariant ⟨[65], 0⟩ (by decide) [CursorOp.readRequired]
    [CursorOp.check 66]

/-- C9: encoding the empty string produces exactly the opening delimiter
immediately followed by the closing delimiter — `stringify ""` emits the
two-unit string `""` (the string delimiter `U+0022` twice) and nothing
else. -/
theorem stringify_empty_string_two_delimiters :
    stringify (Resource.str "") = .ok (String.mk ['"', '"']) := rfl

/-- C10: serializing a `null` root returns the empty string rather than
failing: `serializeRoot` returns immediately (appending nothing) when the
root is `null`, so `serialize null` — and hence `stringify null` —
returns `""`. -/
theorem serialize_null_returns_empty :
    Serializer.serialize Resource.null = .ok "" ∧
    stringify Resource.null = .ok "" ∧
    (∀ out, Serializer.serializeRoot out Resource.null = .ok out) :=
  ⟨rfl, rfl, fun out => by simp [Serializer.serializeRoot]⟩
